import Mathlib

/-!
Verification of the YoKA KNUST information system (src/main.py).

The development embeds, as executable Lean definitions:
* `hash_password` / `verify_password`: SHA-256 of the UTF-8 password bytes,
  rendered as lowercase hex (`hashlib.sha256(password.encode()).hexdigest()`);
* the credential store (`AuthenticationSystem`): `initialize_users`,
  `add_user`, `authenticate`, `get_users`, over an explicit world state that
  records the `users.json` file content and whether file writes succeed;
* the record store (`YokaInformationSystem`): `save_data` / `load_data`
  over CSV text with the quoting convention of `pandas.to_csv`
  (QUOTE_MINIMAL, doubled quotes) and the reading conventions of
  `pandas.read_csv`: empty cells and NA sentinels become missing, and a
  per-column dtype inference turns all-numeric columns into numbers and
  all-boolean-literal columns into booleans;
* the submission handler of `main_application` (required-field validation).
-/

namespace Yoka

/-! ## SHA-256 over byte lists, with `Nat` arithmetic mod 2^32 -/

/-- Truncation to a 32-bit word. -/
def w32 (n : Nat) : Nat := n % 4294967296

/-- Right rotation of a 32-bit word by `n` bits. -/
def rotr (n x : Nat) : Nat := (x >>> n) ||| w32 (x <<< (32 - n))

/-- UTF-8 encoding of a single character (1 to 4 bytes), as in Python
`str.encode()`. -/
def utf8EncodeChar (c : Char) : List Nat :=
  let n := c.toNat
  if n < 128 then [n]
  else if n < 2048 then [192 ||| (n >>> 6), 128 ||| (n &&& 63)]
  else if n < 65536 then
    [224 ||| (n >>> 12), 128 ||| ((n >>> 6) &&& 63), 128 ||| (n &&& 63)]
  else
    [240 ||| (n >>> 18), 128 ||| ((n >>> 12) &&& 63),
     128 ||| ((n >>> 6) &&& 63), 128 ||| (n &&& 63)]

/-- UTF-8 encoding of a string as a byte list. -/
def utf8Encode (s : String) : List Nat := (s.data.map utf8EncodeChar).flatten

/-- The 64 SHA-256 round constants (in decimal). -/
def sha256K : List Nat :=
  [1116352408, 1899447441, 3049323471, 3921009573, 961987163, 1508970993,
   2453635748, 2870763221, 3624381080, 310598401, 607225278, 1426881987,
   1925078388, 2162078206, 2614888103, 3248222580, 3835390401, 4022224774,
   264347078, 604807628, 770255983, 1249150122, 1555081692, 1996064986,
   2554220882, 2821834349, 2952996808, 3210313671, 3336571891, 3584528711,
   113926993, 338241895, 666307205, 773529912, 1294757372, 1396182291,
   1695183700, 1986661051, 2177026350, 2456956037, 2730485921, 2820302411,
   3259730800, 3345764771, 3516065817, 3600352804, 4094571909, 275423344,
   430227734, 506948616, 659060556, 883997877, 958139571, 1322822218,
   1537002063, 1747873779, 1955562222, 2024104815, 2227730452, 2361852424,
   2428436474, 2756734187, 3204031479, 3329325298]

/-- The eight 32-bit working words of a SHA-256 state. -/
structure Hash8 where
  h0 : Nat
  h1 : Nat
  h2 : Nat
  h3 : Nat
  h4 : Nat
  h5 : Nat
  h6 : Nat
  h7 : Nat
  deriving Repr, DecidableEq

/-- SHA-256 initial hash value (in decimal). -/
def sha256H0 : Hash8 :=
  ⟨1779033703, 3144134277, 1013904242, 2773480762,
   1359893119, 2600822924, 528734635, 1541459225⟩

/-- Group a byte list into big-endian 32-bit words. -/
def bytesToWords : List Nat → List Nat
  | b0 :: b1 :: b2 :: b3 :: rest =>
    (b0 * 16777216 + b1 * 65536 + b2 * 256 + b3) :: bytesToWords rest
  | _ => []

/-- `k`-byte big-endian encoding of `n`. -/
def beBytes : Nat → Nat → List Nat
  | 0, _ => []
  | k + 1, n => beBytes k (n >>> 8) ++ [n &&& 255]

/-- SHA-256 message padding: append `0x80`, zero bytes, and the 64-bit
big-endian bit length, up to a multiple of 64 bytes. -/
def sha256Pad (msg : List Nat) : List Nat :=
  let len := msg.length
  let padZeros := (64 - ((len + 9) % 64)) % 64
  msg ++ [128] ++ List.replicate padZeros 0 ++ beBytes 8 (len * 8)

/-- Split a byte list into 64-byte chunks. -/
def chunks64 (bs : List Nat) : List (List Nat) :=
  if h : bs = [] then []
  else bs.take 64 :: chunks64 (bs.drop 64)
termination_by bs.length
decreasing_by
  simp only [List.length_drop]
  exact Nat.sub_lt (List.length_pos.mpr h) (by norm_num)

/-- Extend the 16 message-schedule words of a chunk to 64. -/
def extendW (w : Array Nat) : Array Nat :=
  (List.range 48).foldl (fun w j =>
    let x := w.getD (j + 1) 0
    let y := w.getD (j + 14) 0
    let s0 := (rotr 7 x) ^^^ (rotr 18 x) ^^^ (x >>> 3)
    let s1 := (rotr 17 y) ^^^ (rotr 19 y) ^^^ (y >>> 10)
    w.push (w32 (w.getD j 0 + s0 + w.getD (j + 9) 0 + s1))) w

/-- One SHA-256 compression round. -/
def sha256Round (k wi : Nat) (s : Hash8) : Hash8 :=
  let bigS1 := (rotr 6 s.h4) ^^^ (rotr 11 s.h4) ^^^ (rotr 25 s.h4)
  let ch := (s.h4 &&& s.h5) ^^^ ((4294967295 ^^^ s.h4) &&& s.h6)
  let t1 := w32 (s.h7 + bigS1 + ch + k + wi)
  let bigS0 := (rotr 2 s.h0) ^^^ (rotr 13 s.h0) ^^^ (rotr 22 s.h0)
  let maj := (s.h0 &&& s.h1) ^^^ (s.h0 &&& s.h2) ^^^ (s.h1 &&& s.h2)
  let t2 := w32 (bigS0 + maj)
  ⟨w32 (t1 + t2), s.h0, s.h1, s.h2, w32 (s.h3 + t1), s.h4, s.h5, s.h6⟩

/-- SHA-256 compression of one 64-byte chunk (given as a 64-word schedule). -/
def sha256Compress (d : Hash8) (w : Array Nat) : Hash8 :=
  let s := (List.range 64).foldl
    (fun s i => sha256Round (sha256K.getD i 0) (w.getD i 0) s) d
  ⟨w32 (d.h0 + s.h0), w32 (d.h1 + s.h1), w32 (d.h2 + s.h2), w32 (d.h3 + s.h3),
   w32 (d.h4 + s.h4), w32 (d.h5 + s.h5), w32 (d.h6 + s.h6), w32 (d.h7 + s.h7)⟩

/-- SHA-256 of a byte list. -/
def sha256 (msg : List Nat) : Hash8 :=
  (chunks64 (sha256Pad msg)).foldl
    (fun d chunk => sha256Compress d (extendW (bytesToWords chunk).toArray))
    sha256H0

/-- Lowercase hexadecimal digit for `n < 16`. -/
def hexDigitChar (n : Nat) : Char :=
  if n < 10 then Char.ofNat (48 + n) else Char.ofNat (87 + n)

/-- `k`-digit lowercase hexadecimal rendering of `n`. -/
def toHex : Nat → Nat → List Char
  | 0, _ => []
  | k + 1, n => toHex k (n / 16) ++ [hexDigitChar (n % 16)]

/-- Lowercase hex rendering of a SHA-256 digest (8 words of 8 hex digits). -/
def digestHex (d : Hash8) : List Char :=
  toHex 8 d.h0 ++ toHex 8 d.h1 ++ toHex 8 d.h2 ++ toHex 8 d.h3 ++
  toHex 8 d.h4 ++ toHex 8 d.h5 ++ toHex 8 d.h6 ++ toHex 8 d.h7

/-- Whether a character is a lowercase hexadecimal digit. -/
def isHexLower (c : Char) : Bool :=
  (('0' ≤ c) && (c ≤ '9')) || (('a' ≤ c) && (c ≤ 'f'))

/-- `AuthenticationSystem.hash_password`:
`hashlib.sha256(password.encode()).hexdigest()`. -/
def hash_password (password : String) : String :=
  String.mk (digestHex (sha256 (utf8Encode password)))

/-- `AuthenticationSystem.verify_password`:
`self.hash_password(password) == hashed`. -/
def verify_password (password hashed : String) : Bool :=
  hash_password password == hashed

/-! ## Credential store (`AuthenticationSystem`)

The `users.json` file is modelled explicitly: it is absent, unreadable
(present but failing `json.load`, carrying the exception message), or a
stored mapping.  JSON objects (Python dicts) are modelled as association
lists in insertion order; lookup is first-match, which agrees with dict
lookup since keys are unique.  File writes may fail (`World.writeErr`);
a raised Python exception is an `Except.error`. -/

/-- One value of the `users.json` mapping:
`{"password": ..., "role": ..., "email": ...}`. -/
structure UserRecord where
  password : String
  role : String
  email : String
  deriving Repr, DecidableEq

/-- The state of the `users.json` file. -/
inductive UsersFile where
  /-- `os.path.exists` is false; reading raises `FileNotFoundError`. -/
  | absent
  /-- The file exists but reading or `json.load` raises, with message `msg`. -/
  | corrupt (msg : String)
  /-- The file exists and parses to this mapping. -/
  | stored (users : List (String × UserRecord))
  deriving Repr, DecidableEq

/-- The world state an `AuthenticationSystem` call runs in: the users file,
and whether rewriting the file raises (`some msg`) or succeeds (`none`). -/
structure World where
  usersFile : UsersFile
  writeErr : Option String
  deriving Repr, DecidableEq

/-- `str(e)` of the `FileNotFoundError` raised by `open("users.json")`. -/
def fileNotFoundMsg : String := "[Errno 2] No such file or directory: users.json"

/-- The default admin record seeded by `initialize_users`. -/
def defaultAdmin : UserRecord :=
  ⟨hash_password "admin123", "admin", "admin@yoka.knust.edu.gh"⟩

/-- `AuthenticationSystem.initialize_users`: create the file with the default
admin if it does not exist.  There is no try/except here, so a failing write
propagates as an exception. -/
def initialize_users (w : World) : Except String World :=
  match w.usersFile with
  | .absent =>
    match w.writeErr with
    | none => .ok { w with usersFile := .stored [("admin", defaultAdmin)] }
    | some e => .error e
  | _ => .ok w

/-- `AuthenticationSystem.add_user`.  Every exception along the way is caught
and surfaced as `(False, "Error creating user: " + str(e))`, so the result is
always `.ok`.  A failing rewrite leaves the file corrupted, because
`open(..., "w")` truncates before `json.dump` raises. -/
def add_user (w : World) (username password role email : String) :
    Except String (World × Bool × String) :=
  match w.usersFile with
  | .absent => .ok (w, false, "Error creating user: " ++ fileNotFoundMsg)
  | .corrupt e => .ok (w, false, "Error creating user: " ++ e)
  | .stored users =>
    match users.lookup username with
    | some _ => .ok (w, false, "Username already exists")
    | none =>
      let users := users ++ [(username, ⟨hash_password password, role, email⟩)]
      match w.writeErr with
      | none => .ok ({ w with usersFile := .stored users }, true,
          "User created successfully")
      | some e => .ok ({ w with usersFile := .corrupt e }, false,
          "Error creating user: " ++ e)

/-- `AuthenticationSystem.authenticate`.  Reads only; every exception is
caught, so the call always returns a `(success, role_or_message)` pair. -/
def authenticate (w : World) (username password : String) : Bool × String :=
  match w.usersFile with
  | .absent => (false, "Authentication error: " ++ fileNotFoundMsg)
  | .corrupt e => (false, "Authentication error: " ++ e)
  | .stored users =>
    match users.lookup username with
    | some rec =>
      if verify_password password rec.password then (true, rec.role)
      else (false, "Invalid credentials")
    | none => (false, "Invalid credentials")

/-- `AuthenticationSystem.get_users`: the whole mapping, or `{}` on any
failure (bare `except`). -/
def get_users (w : World) : List (String × UserRecord) :=
  match w.usersFile with
  | .stored users => users
  | _ => []

/-! ## Record store (`YokaInformationSystem`)

`save_data` appends one CSV row with the quoting convention of
`pandas.DataFrame.to_csv` (QUOTE_MINIMAL: quote a field iff it contains a
comma, a quote, or a line break; embedded quotes are doubled; rows end with
a newline).  `load_data` parses the CSV text back (`pandas.read_csv`): the
first row is the header, and a cell whose text is empty or one of the
default NA sentinels is read back as missing (`none`, pandas `NaN`). -/

/-- QUOTE_MINIMAL: a field is quoted iff it contains a delimiter, a quote
character, or a line-break character. -/
def needsQuote (s : String) : Bool :=
  s.data.any (fun c => c == ',' || c == '"' || c == '\n' || c == '\r')

/-- Double every quote character (the CSV escape inside a quoted field). -/
def escQuotes : List Char → List Char
  | [] => []
  | c :: cs => (if c == '"' then ['"', '"'] else [c]) ++ escQuotes cs

/-- Serialize one field, quoting it when QUOTE_MINIMAL requires it. -/
def serializeField (s : String) : List Char :=
  if needsQuote s then '"' :: escQuotes s.data ++ ['"'] else s.data

/-- Serialize the fields of a row, comma-separated. -/
def serializeFields : List String → List Char
  | [] => []
  | [f] => serializeField f
  | f :: fs => serializeField f ++ ',' :: serializeFields fs

/-- Serialize one CSV row, terminated by a newline. -/
def serializeRow (fs : List String) : List Char :=
  serializeFields fs ++ ['\n']

/-- Mode of the CSV reader between two characters. -/
inductive CsvMode where
  /-- At the start of a field (a quote here opens a quoted field). -/
  | fieldStart
  /-- Inside an unquoted field. -/
  | unquoted
  /-- Inside a quoted field. -/
  | quoted
  /-- Inside a quoted field, just after a quote character. -/
  | quoteSeen
  deriving Repr, DecidableEq

/-- State of the CSV reader: completed rows, completed fields of the current
row, characters of the current field, and the mode. -/
structure CsvState where
  rows : List (List String)
  fields : List String
  cur : List Char
  mode : CsvMode
  deriving Repr, DecidableEq

/-- One step of the CSV reader. -/
def csvStep (s : CsvState) (c : Char) : CsvState :=
  match s.mode with
  | .fieldStart =>
    if c == '"' then { s with mode := .quoted }
    else if c == ',' then { s with fields := s.fields ++ [String.mk s.cur], cur := [] }
    else if c == '\n' then
      { s with rows := s.rows ++ [s.fields ++ [String.mk s.cur]],
               fields := [], cur := [] }
    else { s with cur := s.cur ++ [c], mode := .unquoted }
  | .unquoted =>
    if c == ',' then
      { s with fields := s.fields ++ [String.mk s.cur], cur := [],
               mode := .fieldStart }
    else if c == '\n' then
      { s with rows := s.rows ++ [s.fields ++ [String.mk s.cur]],
               fields := [], cur := [], mode := .fieldStart }
    else { s with cur := s.cur ++ [c] }
  | .quoted =>
    if c == '"' then { s with mode := .quoteSeen }
    else { s with cur := s.cur ++ [c] }
  | .quoteSeen =>
    if c == '"' then { s with cur := s.cur ++ ['"'], mode := .quoted }
    else if c == ',' then
      { s with fields := s.fields ++ [String.mk s.cur], cur := [],
               mode := .fieldStart }
    else if c == '\n' then
      { s with rows := s.rows ++ [s.fields ++ [String.mk s.cur]],
               fields := [], cur := [], mode := .fieldStart }
    else { s with cur := s.cur ++ [c], mode := .unquoted }

/-- Flush a pending row at end of input (a final line without a newline). -/
def csvFinish (s : CsvState) : List (List String) :=
  match s.mode with
  | .fieldStart =>
    if s.fields = [] then s.rows
    else s.rows ++ [s.fields ++ [String.mk s.cur]]
  | _ => s.rows ++ [s.fields ++ [String.mk s.cur]]

/-- Parse CSV text into rows of raw field texts. -/
def parseRows (cs : List Char) : List (List String) :=
  csvFinish (cs.foldl csvStep ⟨[], [], [], .fieldStart⟩)

/-- The default NA sentinels of `pandas.read_csv`: a cell with exactly this
text is read as missing (`NaN`). -/
def naValues : List String :=
  ["", "#N/A", "#N/A N/A", "#NA", "-1.#IND", "-1.#QNAN", "-NaN", "-nan",
   "1.#IND", "1.#QNAN", "<NA>", "N/A", "NA", "NULL", "NaN", "None",
   "n/a", "nan", "null"]

/-! ### Cell values and the dtype inference of `pandas.read_csv`

Besides the NA sentinels, `read_csv` infers a dtype per column: a column
whose non-NA cells all parse as integers becomes int64 (float64 when NAs
are present), all-boolean-literal columns become bool, all-numeric
columns become float64, and anything else stays text (object dtype).  So
a cell such as `"0244000001"` in an all-numeric column reloads as the
integer 244000001 (leading zero lost), not as its text.  The model below
reproduces this per-column inference; int64 overflow is ignored and a
float64 cell is modelled as the exact decimal value `m * 10^e` read from
the literal (abstracting the rounding to binary; no claim compares float
values). -/

/-- Value of a digit run. -/
def digitsToNat (l : List Char) : Nat :=
  l.foldl (fun acc c => acc * 10 + (c.toNat - 48)) 0

/-- A non-empty all-digit run, or nothing. -/
def parseDigits? (l : List Char) : Option Nat :=
  if l.isEmpty then none
  else if l.all (fun c => c.isDigit) then some (digitsToNat l) else none

/-- Integer cell text: optional sign followed by digits. -/
def parseIntCell? (s : String) : Option Int :=
  match s.data with
  | '+' :: rest => (parseDigits? rest).map (fun n => (n : Int))
  | '-' :: rest => (parseDigits? rest).map (fun n => -(n : Int))
  | l => (parseDigits? l).map (fun n => (n : Int))

/-- Split at the first exponent marker `e`/`E`. -/
def splitExp : List Char → List Char × Option (List Char)
  | [] => ([], none)
  | c :: rest =>
    if c == 'e' || c == 'E' then ([], some rest)
    else
      let p := splitExp rest
      (c :: p.1, p.2)

/-- Split at the first decimal point. -/
def splitDot : List Char → List Char × Option (List Char)
  | [] => ([], none)
  | c :: rest =>
    if c == '.' then ([], some rest)
    else
      let p := splitDot rest
      (c :: p.1, p.2)

/-- Mantissa `digits[.digits]`, `.digits` or `digits.`: the digit value
and the number of fractional digits. -/
def parseMantissa? (l : List Char) : Option (Nat × Nat) :=
  match splitDot l with
  | (ip, none) => (parseDigits? ip).map (fun n => (n, 0))
  | (ip, some fp) =>
    if ip.isEmpty && fp.isEmpty then none
    else if ip.all (fun c => c.isDigit) && fp.all (fun c => c.isDigit) then
      some (digitsToNat (ip ++ fp), fp.length)
    else none

/-- Exponent: optional sign followed by digits. -/
def parseExp? (l : List Char) : Option Int :=
  match l with
  | '+' :: rest => (parseDigits? rest).map (fun n => (n : Int))
  | '-' :: rest => (parseDigits? rest).map (fun n => -(n : Int))
  | _ => (parseDigits? l).map (fun n => (n : Int))

/-- Unsigned float body `mantissa[(e|E)exp]` as `(m, e)` with value
`m * 10^e`. -/
def parseFloatBody? (l : List Char) : Option (Int × Int) :=
  match splitExp l with
  | (mant, exp?) =>
    match parseMantissa? mant with
    | none => none
    | some mf =>
      match exp? with
      | none => some ((mf.1 : Int), -(mf.2 : Int))
      | some el =>
        match parseExp? el with
        | none => none
        | some e => some ((mf.1 : Int), e - (mf.2 : Int))

/-- Float cell text: optional sign and a float body. -/
def parseFloatCell? (s : String) : Option (Int × Int) :=
  match s.data with
  | '+' :: rest => parseFloatBody? rest
  | '-' :: rest => (parseFloatBody? rest).map (fun p => (-p.1, p.2))
  | l => parseFloatBody? l

/-- Case-insensitive `inf` / `infinity`. -/
def isInfBody (l : List Char) : Bool :=
  l == "inf".data || l == "infinity".data

/-- Infinity cell text with optional sign; `some neg` on success. -/
def parseInf? (s : String) : Option Bool :=
  match s.data.map Char.toLower with
  | '-' :: rest => if isInfBody rest then some true else none
  | '+' :: rest => if isInfBody rest then some false else none
  | l => if isInfBody l then some false else none

/-- The default boolean literals of the `read_csv` parser. -/
def boolLit? (s : String) : Option Bool :=
  if s == "True" || s == "TRUE" || s == "true" then some true
  else if s == "False" || s == "FALSE" || s == "false" then some false
  else none

/-- A value in a reloaded table. -/
inductive Cell where
  /-- Missing (`NaN`). -/
  | na
  /-- A bool-column cell. -/
  | boolean (b : Bool)
  /-- An int64-column cell. -/
  | int (n : Int)
  /-- A float64-column cell with decimal value `m * 10^e`. -/
  | real (m : Int) (e : Int)
  /-- A float64 infinity. -/
  | infinity (neg : Bool)
  /-- An object-column cell: the raw text. -/
  | text (s : String)
  deriving Repr, DecidableEq

/-- A cell text as a float64 value (finite or infinite). -/
def floatCell? (s : String) : Option Cell :=
  match parseFloatCell? s with
  | some p => some (.real p.1 p.2)
  | none => (parseInf? s).map Cell.infinity

/-- Convert one cell text given all cell texts of its column, following
the inference order of the `read_csv` parser: int64 (float64 when the
column also has NAs), then bool, then float64, else object (raw text). -/
def convCell (cells : List String) (s : String) : Cell :=
  if naValues.contains s then .na
  else
    let nonNA := cells.filter (fun c => !(naValues.contains c))
    let hasNA := cells.any (fun c => naValues.contains c)
    if !nonNA.isEmpty && nonNA.all (fun c => (parseIntCell? c).isSome) then
      match parseIntCell? s with
      | some n => if hasNA then .real n 0 else .int n
      | none => .text s
    else if !nonNA.isEmpty && nonNA.all (fun c => (boolLit? c).isSome) then
      match boolLit? s with
      | some b => .boolean b
      | none => .text s
    else if !nonNA.isEmpty && nonNA.all (fun c => (floatCell? c).isSome) then
      match floatCell? s with
      | some v => v
      | none => .text s
    else .text s

/-- Interpret parsed CSV rows as `read_csv` does: the first row is the
header, and each data cell is converted under its column's inferred
dtype (missing cells of a short row count as empty). -/
def loadRows : List (List String) → List (List Cell)
  | [] => []
  | header :: dataRows =>
    dataRows.map (fun row =>
      (List.range header.length).map (fun j =>
        convCell (dataRows.map (fun r2 => r2.getD j "")) (row.getD j "")))

/-- The fixed column schema written by `initialize_data` (37 columns). -/
def columnsHeader : List String :=
  ["timestamp", "official_name", "date_of_birth", "age", "phone_numbers",
   "email", "interests_skills", "on_campus_business", "business_name_type",
   "father_name", "father_phone", "father_church_member", "father_branch",
   "father_position", "father_occupation",
   "mother_name", "mother_phone", "mother_church_member", "mother_branch",
   "mother_position", "mother_occupation",
   "guardian_name", "guardian_phone", "guardian_church_member",
   "guardian_branch", "guardian_position", "guardian_occupation",
   "school_name", "program", "current_class", "hostel_hall", "room_number",
   "church_branch", "branch_pastor", "shepherd_group", "yoka_position",
   "submitted_by"]

/-- `YokaInformationSystem.initialize_data`: write the header line if the
file does not exist. -/
def initialize_data (file : Option (List Char)) : Option (List Char) :=
  match file with
  | none => some (serializeRow columnsHeader)
  | some cs => some cs

/-- `YokaInformationSystem.save_data`: append one row (`mode="a"`,
`header=False`); if the file does not exist, write it with the header. -/
def save_data (file : Option (List Char)) (r : List String) : Option (List Char) :=
  match file with
  | some cs => some (cs ++ serializeRow r)
  | none => some (serializeRow columnsHeader ++ serializeRow r)

/-- `YokaInformationSystem.load_data`: parse the CSV file with
`pandas.read_csv` semantics (header row, NA sentinels, per-column dtype
inference).  An absent file yields an empty table. -/
def load_data (file : Option (List Char)) : List (List Cell) :=
  match file with
  | none => []
  | some cs => loadRows (parseRows cs)

/-! ## Form submission (`main_application`) -/

/-- A `datetime.date` from `st.date_input` (always present: Python date
objects are truthy). -/
structure Date where
  year : Nat
  month : Nat
  day : Nat
  deriving Repr, DecidableEq

/-- Zero-padded two-digit rendering, as in `strftime`. -/
def pad2 (n : Nat) : String :=
  if n < 10 then "0" ++ toString n else toString n

/-- `date.strftime("%Y-%m-%d")` (years here are four digits already). -/
def dateStr (d : Date) : String :=
  toString d.year ++ "-" ++ pad2 d.month ++ "-" ++ pad2 d.day

/-- The local form values of `main_application` at submission time. -/
structure FormInput where
  official_name : String
  date_of_birth : Date
  age : Nat
  phone_numbers : String
  email : String
  interests_skills : String
  on_campus_business : String
  business_name_type : String
  father_name : String
  father_phone : String
  father_church_member : String
  father_branch : String
  father_position : String
  father_occupation : String
  mother_name : String
  mother_phone : String
  mother_church_member : String
  mother_branch : String
  mother_position : String
  mother_occupation : String
  guardian_name : String
  guardian_phone : String
  guardian_church_member : String
  guardian_branch : String
  guardian_position : String
  guardian_occupation : String
  school_name : String
  program : String
  current_class : String
  hostel_hall : String
  room_number : String
  church_branch : String
  branch_pastor : String
  shepherd_group : String
  yoka_position : String
  deriving Repr, DecidableEq

/-- The `required_fields` dict: label and Python falsiness of the value.
Empty strings and `0` are falsy; a `datetime.date` is always truthy. -/
def requiredPairs (f : FormInput) : List (String × Bool) :=
  [("Official Name", f.official_name == ""),
   ("Date of Birth", false),
   ("Age", f.age == 0),
   ("Phone Numbers", f.phone_numbers == ""),
   ("Email", f.email == ""),
   ("School Name", f.school_name == ""),
   ("Program", f.program == ""),
   ("Current Class", f.current_class == ""),
   ("Church Branch", f.church_branch == ""),
   ("Branch Pastor", f.branch_pastor == "")]

/-- `missing_fields = [field for field, value in required_fields.items()
if not value]`. -/
def missingFields (f : FormInput) : List String :=
  ((requiredPairs f).filter (fun p => p.2)).map (fun p => p.1)

/-- The `form_data` dict, in the key order of the source (the cell texts
that `to_csv` renders). -/
def buildRecord (now username : String) (f : FormInput) : List String :=
  [now, f.official_name, dateStr f.date_of_birth, toString f.age,
   f.phone_numbers, f.email, f.interests_skills, f.on_campus_business,
   f.business_name_type,
   f.father_name, f.father_phone, f.father_church_member, f.father_branch,
   f.father_position, f.father_occupation,
   f.mother_name, f.mother_phone, f.mother_church_member, f.mother_branch,
   f.mother_position, f.mother_occupation,
   f.guardian_name, f.guardian_phone, f.guardian_church_member,
   f.guardian_branch, f.guardian_position, f.guardian_occupation,
   f.school_name, f.program, f.current_class, f.hostel_hall, f.room_number,
   f.church_branch, f.branch_pastor, f.shepherd_group, f.yoka_position,
   username]

/-- The submit branch of `main_application`: validate required fields, and
either report the missing ones (writing nothing) or save the record.
Returns the new file state and the banner message. -/
def submitForm (file : Option (List Char)) (now username : String)
    (f : FormInput) : Option (List Char) × String :=
  let missing := missingFields f
  if missing = [] then
    (save_data file (buildRecord now username f),
     "Information submitted successfully! Thank you for registering with YoKA KNUST.")
  else
    (file, "Please fill in the following required fields: " ++
      String.intercalate ", " missing)

/-! ## Concrete sample values used by witnesses and counterexamples -/

/-- A submission with every required field filled except `email`. -/
def sampleMissingForm : FormInput :=
  { official_name := "Kwame Mensah", date_of_birth := ⟨2002, 5, 17⟩,
    age := 21, phone_numbers := "0241234567", email := "",
    interests_skills := "reading", on_campus_business := "No",
    business_name_type := "",
    father_name := "K. Mensah Snr", father_phone := "0244000001",
    father_church_member := "Yes", father_branch := "Ayeduase",
    father_position := "Elder", father_occupation := "Trader",
    mother_name := "A. Mensah", mother_phone := "0244000002",
    mother_church_member := "No", mother_branch := "",
    mother_position := "", mother_occupation := "Teacher",
    guardian_name := "", guardian_phone := "",
    guardian_church_member := "No", guardian_branch := "",
    guardian_position := "", guardian_occupation := "",
    school_name := "KNUST", program := "Computer Science",
    current_class := "Level 300", hostel_hall := "Unity Hall",
    room_number := "A45", church_branch := "Ayeduase Branch",
    branch_pastor := "Pastor John", shepherd_group := "Group 4",
    yoka_position := "Member" }

/-! ## Helper lemmas about the hash digest and association-list lookup -/

theorem toHex_length : ∀ k n : Nat, (toHex k n).length = k
  | 0, _ => rfl
  | k + 1, n => by simp [toHex, toHex_length k (n / 16)]

theorem isHexLower_hexDigitChar : ∀ m : Nat, m < 16 → isHexLower (hexDigitChar m) = true := by
  decide

theorem mem_toHex_isHexLower : ∀ (k n : Nat) (c : Char), c ∈ toHex k n → isHexLower c = true := by
  intro k
  induction k with
  | zero => intro n c h; simp [toHex] at h
  | succ k ih =>
    intro n c h
    simp only [toHex, List.mem_append, List.mem_singleton] at h
    rcases h with h | h
    · exact ih _ _ h
    · subst h
      exact isHexLower_hexDigitChar _ (Nat.mod_lt _ (by norm_num))

theorem digestHex_length (d : Hash8) : (digestHex d).length = 64 := by
  simp [digestHex, toHex_length]

theorem hash_password_data (p : String) :
    (hash_password p).data = digestHex (sha256 (utf8Encode p)) := rfl

theorem hash_password_data_length (p : String) : (hash_password p).data.length = 64 := by
  rw [hash_password_data]
  exact digestHex_length _

theorem hash_password_hex (p : String) :
    ∀ c ∈ (hash_password p).data, isHexLower c = true := by
  rw [hash_password_data]
  intro c hc
  simp only [digestHex, List.mem_append] at hc
  rcases hc with ((((((h | h) | h) | h) | h) | h) | h) | h <;>
    exact mem_toHex_isHexLower _ _ _ h

theorem verify_hash_self (p : String) : verify_password p (hash_password p) = true := by
  simp [verify_password]

theorem lookup_append_none (u : String) (l1 l2 : List (String × UserRecord))
    (h : l1.lookup u = none) : (l1 ++ l2).lookup u = l2.lookup u := by
  induction l1 with
  | nil => rfl
  | cons kv l ih =>
    obtain ⟨k, v⟩ := kv
    cases hk : u == k with
    | true =>
      simp only [List.lookup, hk] at h
      exact Option.noConfusion h
    | false =>
      simp only [List.cons_append, List.lookup, hk] at h ⊢
      exact ih h

theorem lookup_cons_self (u : String) (v : UserRecord) (l : List (String × UserRecord)) :
    ((u, v) :: l).lookup u = some v := by
  simp [List.lookup]

/-! ## Claim theorems -/

/-- C1: `authenticate(username, password)` returns `(True, role)` iff the
username is stored and `hash_password(password)` equals the stored digest;
in every other case on a readable store it returns
`(False, "Invalid credentials")`.  Moreover a user just added by a
successful `add_user` with password `p` authenticates with `p` and gets
back the role passed to `add_user`. -/
theorem C1_authenticate_correct (w : World) (users : List (String × UserRecord))
    (u p : String) (hw : w.usersFile = .stored users) :
    ((∀ r : String, authenticate w u p = (true, r) ↔
        ∃ rec, users.lookup u = some rec ∧ hash_password p = rec.password ∧
          rec.role = r)
      ∧ (users.lookup u = none →
          authenticate w u p = (false, "Invalid credentials"))
      ∧ (∀ rec, users.lookup u = some rec → hash_password p ≠ rec.password →
          authenticate w u p = (false, "Invalid credentials")))
    ∧ (∀ (w' : World) (m role email : String),
        add_user w u p role email = .ok (w', true, m) →
        authenticate w' u p = (true, role)) := by
  obtain ⟨uf, we⟩ := w
  dsimp only at hw
  subst hw
  refine ⟨⟨?_, ?_, ?_⟩, ?_⟩
  · intro r
    simp only [authenticate]
    cases h : users.lookup u with
    | none => simp
    | some rec =>
      cases hb : hash_password p == rec.password with
      | true =>
        have he := eq_of_beq hb
        simp [verify_password, hb, he, eq_comm]
      | false =>
        have hne : hash_password p ≠ rec.password := by
          intro he
          rw [he] at hb
          simp at hb
        simp [verify_password, hb, hne]
  · intro h
    simp [authenticate, h]
  · intro rec h hne
    have hb : (hash_password p == rec.password) = false := by
      cases hb : hash_password p == rec.password with
      | true => exact absurd (eq_of_beq hb) hne
      | false => rfl
    simp [authenticate, h, verify_password, hb]
  · intro w' m role email hadd
    simp only [add_user] at hadd
    cases h : users.lookup u with
    | some rec =>
      rw [h] at hadd
      simp at hadd
    | none =>
      rw [h] at hadd
      cases hwe : we with
      | some e =>
        rw [hwe] at hadd
        simp at hadd
      | none =>
        rw [hwe] at hadd
        simp only [Except.ok.injEq, Prod.mk.injEq] at hadd
        obtain ⟨hw', _, _⟩ := hadd
        subst hw'
        simp only [authenticate,
          lookup_append_none u users _ h, lookup_cons_self]
        simp [verify_hash_self]

/-- C1 witness: a concrete store where `bob` was stored with the hash of
`pw1` authenticates as role `user`. -/
theorem C1_witness :
    authenticate ⟨.stored [("bob", ⟨hash_password "pw1", "user", "bob@x.com"⟩)], none⟩
      "bob" "pw1" = (true, "user") :=
  ((C1_authenticate_correct _ [("bob", ⟨hash_password "pw1", "user", "bob@x.com"⟩)]
      "bob" "pw1" rfl).1.1 "user").mpr
    ⟨⟨hash_password "pw1", "user", "bob@x.com"⟩, by simp [List.lookup], rfl, rfl⟩

/-- C2: on a readable store, `add_user` with an already-present username
fails with "Username already exists" and leaves the world exactly as it
was; with a fresh username (and a succeeding write) it appends the record
with the hashed password and persists the full mapping. -/
theorem C2_add_user_duplicate (w : World) (users : List (String × UserRecord))
    (u p2 r2 e2 : String) (hw : w.usersFile = .stored users) :
    (∀ rec, users.lookup u = some rec →
        add_user w u p2 r2 e2 = .ok (w, false, "Username already exists"))
    ∧ (users.lookup u = none → w.writeErr = none →
        add_user w u p2 r2 e2 =
          .ok ({ w with usersFile :=
                  .stored (users ++ [(u, ⟨hash_password p2, r2, e2⟩)]) },
               true, "User created successfully")) := by
  obtain ⟨uf, we⟩ := w
  dsimp only at hw
  subst hw
  constructor
  · intro rec h
    simp [add_user, h]
  · intro h hwe
    dsimp only at hwe
    subst hwe
    simp [add_user, h]

/-- C2 witness: adding `admin` a second time is rejected and the store is
unchanged. -/
theorem C2_witness :
    add_user ⟨.stored [("admin", ⟨"d", "admin", ""⟩)], none⟩ "admin" "pw2" "admin" "x" =
      .ok (⟨.stored [("admin", ⟨"d", "admin", ""⟩)], none⟩, false,
           "Username already exists") :=
  (C2_add_user_duplicate _ [("admin", ⟨"d", "admin", ""⟩)] "admin" "pw2" "admin" "x"
      rfl).1 ⟨"d", "admin", ""⟩ (by simp [List.lookup])

/-- C3: `hash_password` is a deterministic pure function producing a
64-character lowercase-hex digest, and `verify_password p (hash_password p)`
holds for every non-empty `p` (unicode and punctuation included). -/
theorem C3_hash_deterministic_pure (p : String) :
    hash_password p = hash_password p
    ∧ (hash_password p).data.length = 64
    ∧ (∀ c ∈ (hash_password p).data, isHexLower c = true)
    ∧ (p ≠ "" → verify_password p (hash_password p) = true) :=
  ⟨rfl, hash_password_data_length p, hash_password_hex p,
   fun _ => verify_hash_self p⟩

/-- C3 witness: a password with unicode and punctuation. -/
theorem C3_witness :
    (hash_password "Päß,word!").data.length = 64
    ∧ verify_password "Päß,word!" (hash_password "Päß,word!") = true :=
  ⟨(C3_hash_deterministic_pure "Päß,word!").2.1,
   (C3_hash_deterministic_pure "Päß,word!").2.2.2 (by decide)⟩

/-- C4: on an absent store (with writes succeeding), `initialize_users`
creates exactly the single default admin record, whose password digest is
the hash of `admin123`, and `authenticate("admin", "admin123")` then
succeeds with role `admin`; on an existing store it changes nothing and
raises nothing. -/
theorem C4_initialize_seeds_admin (w : World) :
    (w.usersFile = .absent → w.writeErr = none →
        initialize_users w =
          .ok { w with usersFile := .stored [("admin",
                  ⟨hash_password "admin123", "admin", "admin@yoka.knust.edu.gh"⟩)] }
        ∧ authenticate { w with usersFile := .stored [("admin",
              ⟨hash_password "admin123", "admin", "admin@yoka.knust.edu.gh"⟩)] }
            "admin" "admin123" = (true, "admin"))
    ∧ (w.usersFile ≠ .absent → initialize_users w = .ok w) := by
  obtain ⟨uf, we⟩ := w
  constructor
  · intro h hwe
    dsimp only at h hwe
    subst h
    subst hwe
    refine ⟨rfl, ?_⟩
    simp [authenticate, List.lookup, verify_hash_self]
  · intro h
    dsimp only at h
    cases uf with
    | absent => exact absurd rfl h
    | corrupt e => rfl
    | stored users => rfl

/-- C4 witness: initialization of the fresh store and the subsequent
default-admin login. -/
theorem C4_witness :
    initialize_users ⟨.absent, none⟩ =
      .ok ⟨.stored [("admin",
            ⟨hash_password "admin123", "admin", "admin@yoka.knust.edu.gh"⟩)], none⟩
    ∧ authenticate ⟨.stored [("admin",
          ⟨hash_password "admin123", "admin", "admin@yoka.knust.edu.gh"⟩)], none⟩
        "admin" "admin123" = (true, "admin") :=
  (C4_initialize_seeds_admin ⟨.absent, none⟩).1 rfl rfl

/-- C5: the unknown-username failure and the wrong-password failure of
`authenticate` return the identical `(False, "Invalid credentials")` pair,
so the result does not reveal which cause occurred. -/
theorem C5_failure_indistinguishable (w : World) (users : List (String × UserRecord))
    (u1 p1 u2 p2 : String) (rec : UserRecord)
    (hw : w.usersFile = .stored users)
    (h1 : users.lookup u1 = none)
    (h2 : users.lookup u2 = some rec)
    (h3 : hash_password p2 ≠ rec.password) :
    authenticate w u1 p1 = (false, "Invalid credentials")
    ∧ authenticate w u2 p2 = (false, "Invalid credentials")
    ∧ authenticate w u1 p1 = authenticate w u2 p2 := by
  obtain ⟨uf, we⟩ := w
  dsimp only at hw
  subst hw
  have hb : (hash_password p2 == rec.password) = false := by
    cases hb : hash_password p2 == rec.password with
    | true => exact absurd (eq_of_beq hb) h3
    | false => rfl
  refine ⟨?_, ?_, ?_⟩
  · simp [authenticate, h1]
  · simp [authenticate, h2, verify_password, hb]
  · simp [authenticate, h1, h2, verify_password, hb]

/-- C5 witness: an absent user and a present user with a non-verifying
password produce the same failure pair. -/
theorem C5_witness :
    authenticate ⟨.stored [("bob", ⟨"not-a-digest", "user", ""⟩)], none⟩
        "alice" "pw" = (false, "Invalid credentials")
    ∧ authenticate ⟨.stored [("bob", ⟨"not-a-digest", "user", ""⟩)], none⟩
        "bob" "wrong" = (false, "Invalid credentials")
    ∧ authenticate ⟨.stored [("bob", ⟨"not-a-digest", "user", ""⟩)], none⟩
        "alice" "pw" =
      authenticate ⟨.stored [("bob", ⟨"not-a-digest", "user", ""⟩)], none⟩
        "bob" "wrong" :=
  C5_failure_indistinguishable _ [("bob", ⟨"not-a-digest", "user", ""⟩)]
    "alice" "pw" "bob" "wrong" ⟨"not-a-digest", "user", ""⟩
    rfl (by simp [List.lookup]) (by simp [List.lookup])
    (by
      intro hc
      have hl := hash_password_data_length "wrong"
      rw [hc] at hl
      exact absurd hl (by decide))

/-- C9: the core `add_user` validates nothing: any fresh username
(including the empty string), any password (including empty), any role
string and any email are accepted and stored verbatim, with only the
password hashed. -/
theorem C9_add_user_no_validation (w : World) (users : List (String × UserRecord))
    (u p role email : String)
    (hw : w.usersFile = .stored users)
    (hu : users.lookup u = none)
    (hok : w.writeErr = none) :
    add_user w u p role email =
      .ok ({ w with usersFile :=
              .stored (users ++ [(u, ⟨hash_password p, role, email⟩)]) },
           true, "User created successfully") := by
  obtain ⟨uf, we⟩ := w
  dsimp only at hw hok
  subst hw
  subst hok
  simp [add_user, hu]

/-- C9 witness: empty username, empty password and a free-form role are
accepted. -/
theorem C9_witness :
    add_user ⟨.stored [], none⟩ "" "" "wizard" "" =
      .ok (⟨.stored [("", ⟨hash_password "", "wizard", ""⟩)], none⟩, true,
           "User created successfully") :=
  C9_add_user_no_validation ⟨.stored [], none⟩ [] "" "" "wizard" "" rfl rfl rfl

/-- C10: the hash/verify round trip also holds for the empty password, and
a user added with the empty password can authenticate with it. -/
theorem C10_empty_password (w : World) (users : List (String × UserRecord))
    (u role email : String)
    (hw : w.usersFile = .stored users)
    (hu : users.lookup u = none)
    (hok : w.writeErr = none) :
    verify_password "" (hash_password "") = true
    ∧ add_user w u "" role email =
        .ok ({ w with usersFile :=
                .stored (users ++ [(u, ⟨hash_password "", role, email⟩)]) },
             true, "User created successfully")
    ∧ authenticate ({ w with usersFile := .stored (users ++ [(u, ⟨hash_password "", role, email⟩)]) }) u "" =
        (true, role) := by
  obtain ⟨uf, we⟩ := w
  dsimp only at hw hok
  subst hw
  subst hok
  refine ⟨verify_hash_self "", ?_, ?_⟩
  · simp [add_user, hu]
  · simp only [authenticate, lookup_append_none u users _ hu, lookup_cons_self]
    simp [verify_hash_self]

/-- C10 witness: a concrete user with the empty password round trips. -/
theorem C10_witness :
    verify_password "" (hash_password "") = true
    ∧ add_user ⟨.stored [], none⟩ "u" "" "user" "" =
        .ok (⟨.stored [("u", ⟨hash_password "", "user", ""⟩)], none⟩, true,
             "User created successfully")
    ∧ authenticate ⟨.stored [("u", ⟨hash_password "", "user", ""⟩)], none⟩
        "u" "" = (true, "user") :=
  C10_empty_password ⟨.stored [], none⟩ [] "u" "user" "" rfl rfl rfl

/-- C8 counterexample: `initialize_users` has no try/except, so when the
store is absent and the creating write fails, the fault propagates to the
caller instead of being returned as a result — the claim that no core
operation (including initialize) raises under I/O failure is false. -/
theorem C8_counterexample :
    initialize_users ⟨.absent, some "[Errno 28] No space left on device"⟩ =
      .error "[Errno 28] No space left on device" := rfl

/-- C8 amended: `add_user`, `authenticate` and `get_users` never raise —
on an absent or unreadable store the first two return an explicit
`(False, descriptive message)` result and `get_users` returns the empty
mapping, and `add_user` returns a result in every world; `initialize_users`
raises no fault whenever the store already exists (but can propagate a
write fault on an absent store, as the counterexample shows). -/
theorem C8_amended_no_faults (w : World) (u p role email m : String) :
    (w.usersFile = .absent →
        add_user w u p role email =
          .ok (w, false, "Error creating user: " ++ fileNotFoundMsg)
        ∧ authenticate w u p =
            (false, "Authentication error: " ++ fileNotFoundMsg)
        ∧ get_users w = [])
    ∧ (w.usersFile = .corrupt m →
        add_user w u p role email = .ok (w, false, "Error creating user: " ++ m)
        ∧ authenticate w u p = (false, "Authentication error: " ++ m)
        ∧ get_users w = [])
    ∧ (∃ out, add_user w u p role email = .ok out)
    ∧ (w.usersFile ≠ .absent → initialize_users w = .ok w) := by
  obtain ⟨uf, we⟩ := w
  refine ⟨?_, ?_, ?_, ?_⟩
  · intro h
    dsimp only at h
    subst h
    exact ⟨rfl, rfl, rfl⟩
  · intro h
    dsimp only at h
    subst h
    exact ⟨rfl, rfl, rfl⟩
  · cases uf with
    | absent => exact ⟨_, rfl⟩
    | corrupt e => exact ⟨_, rfl⟩
    | stored users =>
      cases h : users.lookup u with
      | some rec =>
        exact ⟨(⟨.stored users, we⟩, false, "Username already exists"),
          by simp [add_user, h]⟩
      | none =>
        cases we with
        | none =>
          exact ⟨(⟨.stored (users ++ [(u, ⟨hash_password p, role, email⟩)]),
              none⟩, true, "User created successfully"),
            by simp [add_user, h]⟩
        | some e =>
          exact ⟨(⟨.corrupt e, some e⟩, false, "Error creating user: " ++ e),
            by simp [add_user, h]⟩
  · intro h
    dsimp only at h
    cases uf with
    | absent => exact absurd rfl h
    | corrupt e => rfl
    | stored users => rfl

/-- C8 witness: a store whose JSON does not parse — every operation
reports, none raises. -/
theorem C8_witness :
    add_user ⟨.corrupt "Expecting value: line 1 column 1 (char 0)", none⟩
        "u" "p" "user" "e" =
      .ok (⟨.corrupt "Expecting value: line 1 column 1 (char 0)", none⟩, false,
        "Error creating user: " ++ "Expecting value: line 1 column 1 (char 0)")
    ∧ authenticate ⟨.corrupt "Expecting value: line 1 column 1 (char 0)", none⟩
        "u" "p" =
      (false, "Authentication error: " ++ "Expecting value: line 1 column 1 (char 0)")
    ∧ get_users ⟨.corrupt "Expecting value: line 1 column 1 (char 0)", none⟩ = [] :=
  (C8_amended_no_faults ⟨.corrupt "Expecting value: line 1 column 1 (char 0)", none⟩
    "u" "p" "user" "e" "Expecting value: line 1 column 1 (char 0)").2.1 rfl

/-! ## CSV round-trip lemmas -/

theorem columnsHeader_length : columnsHeader.length = 37 := rfl

/-- C7: a submission with any required field empty (Python-falsy) is
rejected: the message lists exactly the missing field labels, the file is
not written, and reloading shows no new row. -/
theorem C7_required_field_validation (file : Option (List Char)) (now user : String)
    (f : FormInput)
    (h : f.official_name = "" ∨ f.age = 0 ∨ f.phone_numbers = "" ∨ f.email = "" ∨
      f.school_name = "" ∨ f.program = "" ∨ f.current_class = "" ∨
      f.church_branch = "" ∨ f.branch_pastor = "") :
    missingFields f ≠ []
    ∧ submitForm file now user f =
        (file, "Please fill in the following required fields: " ++
          String.intercalate ", " (missingFields f))
    ∧ load_data (submitForm file now user f).1 = load_data file := by
  have hmem : ∀ (name : String) (b : Bool), (name, b) ∈ requiredPairs f →
      b = true → name ∈ missingFields f := by
    intro name b hb htrue
    exact List.mem_map.mpr ⟨(name, b), List.mem_filter.mpr ⟨hb, htrue⟩, rfl⟩
  have hne : missingFields f ≠ [] := by
    rcases h with h | h | h | h | h | h | h | h | h
    · exact List.ne_nil_of_mem (hmem "Official Name" (f.official_name == "")
        (by simp [requiredPairs]) (by simp [h]))
    · exact List.ne_nil_of_mem (hmem "Age" (f.age == 0)
        (by simp [requiredPairs]) (by simp [h]))
    · exact List.ne_nil_of_mem (hmem "Phone Numbers" (f.phone_numbers == "")
        (by simp [requiredPairs]) (by simp [h]))
    · exact List.ne_nil_of_mem (hmem "Email" (f.email == "")
        (by simp [requiredPairs]) (by simp [h]))
    · exact List.ne_nil_of_mem (hmem "School Name" (f.school_name == "")
        (by simp [requiredPairs]) (by simp [h]))
    · exact List.ne_nil_of_mem (hmem "Program" (f.program == "")
        (by simp [requiredPairs]) (by simp [h]))
    · exact List.ne_nil_of_mem (hmem "Current Class" (f.current_class == "")
        (by simp [requiredPairs]) (by simp [h]))
    · exact List.ne_nil_of_mem (hmem "Church Branch" (f.church_branch == "")
        (by simp [requiredPairs]) (by simp [h]))
    · exact List.ne_nil_of_mem (hmem "Branch Pastor" (f.branch_pastor == "")
        (by simp [requiredPairs]) (by simp [h]))
  refine ⟨hne, ?_, ?_⟩
  · simp only [submitForm]
    rw [if_neg hne]
  · simp only [submitForm]
    rw [if_neg hne]

/-- C7 witness: a concrete submission missing only `email` is rejected on
a fresh store and the store is unchanged. -/
theorem C7_witness :
    missingFields sampleMissingForm ≠ []
    ∧ submitForm (some (serializeRow columnsHeader)) "2024-01-01 10:00:00" "admin"
        sampleMissingForm =
      (some (serializeRow columnsHeader),
        "Please fill in the following required fields: " ++
          String.intercalate ", " (missingFields sampleMissingForm))
    ∧ load_data (submitForm (some (serializeRow columnsHeader)) "2024-01-01 10:00:00"
        "admin" sampleMissingForm).1 = load_data (some (serializeRow columnsHeader)) :=
  C7_required_field_validation (some (serializeRow columnsHeader))
    "2024-01-01 10:00:00" "admin" sampleMissingForm
    (Or.inr (Or.inr (Or.inr (Or.inl rfl))))

end Yoka
